import Mathlib

/-!
Shallow embedding of the HexClaw orchestrator core (hexstrike-ai repository):
the inference router (`src/inference.py`), the two-tier inference cache
(`src/cache.py`), the severity scorer of the threat monitor (`src/monitor.py`),
the skill dispatcher and null notifier (`src/daemon.py`), and the Telegram
command/approval layer (`src/telegram.py`).

Conventions of the embedding:
* Python dicts keyed by strings are modelled as association lists
  (`List (String × _)`), with `List.lookup` playing the role of `dict.get`.
* Python floats that only ever hold small decimal literals (CVSS scores,
  thresholds, costs) are modelled as `ℚ`; all comparisons performed by the
  code are exact at the values it manipulates.
* SHA-256 keying of cache entries is modelled by the injective map
  `fun p => "exact:" ++ p`; semantic entry ids, which the source derives from
  a hash of prompt and wall-clock time, are modelled by a fresh counter.
* Network effects (Redis, LiteLLM providers, the MCP tool server, Telegram)
  are modelled by explicit state records and oracle functions passed as
  arguments; an exception thrown by an adapter is an `Except.error`.
-/

/-! ## Generic helpers -/

/-- Character-list version of Python's substring containment: does `needle`
occur at the head of the list? -/
def charsMatchAt : List Char → List Char → Bool
  | [], _ => true
  | _ :: _, [] => false
  | a :: as, b :: bs => a == b && charsMatchAt as bs

/-- Does `needle` occur contiguously anywhere in the haystack? -/
def charsContain (needle : List Char) : List Char → Bool
  | [] => charsMatchAt needle []
  | c :: t => charsMatchAt needle (c :: t) || charsContain needle t

/-- Python's `needle in hay` substring test on strings. -/
def strContains (hay needle : String) : Bool :=
  charsContain needle.data hay.data

/-- Python's `str.lower()`, modelled characterwise with `Char.toLower`
(adequate for the ASCII severity labels and keywords compared here). -/
def strLower (s : String) : String := String.mk (s.data.map Char.toLower)

theorem lookup_eq_none_of_not_mem_keys {β : Type} (l : List (String × β)) (k : String)
    (h : k ∉ l.map Prod.fst) : l.lookup k = none := by
  induction l with
  | nil => rfl
  | cons p t ih =>
    simp only [List.map_cons, List.mem_cons, not_or] at h
    simp only [List.lookup, beq_eq_false_iff_ne.mpr h.1, ih h.2]

/-! ## Threat monitor severity scorer (`src/monitor.py`)

`_CRITICAL_KEYWORDS`, `_HIGH_KEYWORDS`, `_MEDIUM_KEYWORDS`, `_CVSS_SEVERITY`
and `_score_severity` are transcribed from `src/monitor.py` lines 87-207.
The leading underscores of the Python names are dropped. -/

def CRITICAL_KEYWORDS : List String :=
  ["remote code execution", "rce", "zero-day", "0day", "critical",
   "unauthenticated", "log4shell", "log4j", "spring4shell", "proxylogon",
   "proxyshell", "printnightmare", "eternalblue", "bluekeep"]

def HIGH_KEYWORDS : List String :=
  ["authentication bypass", "privilege escalation", "sql injection", "sqli",
   "path traversal", "lfi", "rfi", "xxe", "deserialization",
   "heap overflow", "buffer overflow", "use-after-free"]

def MEDIUM_KEYWORDS : List String :=
  ["xss", "cross-site scripting", "csrf", "ssrf", "open redirect",
   "information disclosure", "sensitive data", "default credentials"]

/-- CVSS score thresholds to severity labels; `0.1` is the source's literal
lowest threshold. -/
def CVSS_SEVERITY : List (ℚ × String) :=
  [(9, "critical"), (7, "high"), (4, "medium"), (1/10, "low")]

/-- Does the regex `cve-\d{4}-\d+` match at the head of the character list?
The pattern is anchored: `cve-`, exactly four digits, `-`, at least one digit. -/
def cveMatchAt : List Char → Bool
  | 'c' :: 'v' :: 'e' :: '-' :: d1 :: d2 :: d3 :: d4 :: '-' :: d5 :: _ =>
      d1.isDigit && d2.isDigit && d3.isDigit && d4.isDigit && d5.isDigit
  | _ => false

/-- Search version of `cveMatchAt`: models `re.search(r"cve-\d{4}-\d+", text)`
returning whether a match exists. -/
def hasCveList : List Char → Bool
  | [] => false
  | c :: t => cveMatchAt (c :: t) || hasCveList t

def hasCveToken (s : String) : Bool := hasCveList s.data

/-- `_score_severity(title, summary, cvss)` from `src/monitor.py` lines 181-207.
With a CVSS score: first threshold in `_CVSS_SEVERITY` that the score meets,
else `"info"`.  Without: the three keyword lists in order, then the CVE
pattern, else `"info"`. -/
def score_severity (title summary : String) (cvss : Option ℚ) : String :=
  match cvss with
  | some c =>
    match CVSS_SEVERITY.find? (fun p => decide (p.1 ≤ c)) with
    | some p => p.2
    | none => "info"
  | none =>
    let text := strLower (title ++ " " ++ summary)
    if CRITICAL_KEYWORDS.any (fun kw => strContains text kw) then "critical"
    else if HIGH_KEYWORDS.any (fun kw => strContains text kw) then "high"
    else if MEDIUM_KEYWORDS.any (fun kw => strContains text kw) then "medium"
    else if hasCveToken text then "low"
    else "info"

/-! ## Two-tier inference cache (`src/cache.py`) -/

/-- The env-configurable cache knobs (`CACHE_SEMANTIC_THRESHOLD`,
`CACHE_SEMANTIC_MAX_ENTRIES`).  TTLs are not modelled: the embedding looks at
a single instant, at which a stored entry is live. -/
structure CacheConfig where
  threshold : ℚ
  maxEntries : Nat

/-- The source's defaults: threshold 0.92, max entries 2000. -/
def defaultCacheConfig : CacheConfig := { threshold := 92/100, maxEntries := 2000 }

/-- The embedding backend of `src/cache.py` (`_embed`, `_cosine`).  `embed`
returns `none` when no backend is available (`_EMBED_BACKEND == "none"`), in
which case the semantic tier is inert.  `cosine` abstracts the numpy cosine
similarity. -/
structure EmbedBackend where
  embed : String → Option (List ℚ)
  cosine : List ℚ → List ℚ → ℚ

/-- One semantic-tier record: the Redis hash `sem:embed:{entry_id}` with
fields `vec`, `response`, `prompt` (prompt truncated to 200 chars). -/
structure SemRecord where
  vec : List ℚ
  response : String
  prompt : String
deriving DecidableEq

/-- The `Cache` object of `src/cache.py` together with the Redis state it
manipulates.  `redisUp` models whether the Redis server is reachable (the
source holds one client per tier on the same server; an unreachable server
yields `None` clients for both tiers).  `exact` is DB 0 keyed by
`exact:{hash}`; `semIndex` is the list `sem:index` (oldest leftmost);
`semRecords` maps entry ids to their hashes. -/
structure Cache where
  redisUp : Bool
  exact : List (String × String)
  semIndex : List Nat
  semRecords : List (Nat × SemRecord)
  nextId : Nat
  hits_exact : Nat
  hits_semantic : Nat
  misses : Nat
deriving DecidableEq

/-- `Cache._exact_key`: `"exact:" ++ sha256(prompt)`, modelled with the
injective keying `"exact:" ++ prompt`. -/
def exact_key (prompt : String) : String := "exact:" ++ prompt

/-- `Cache._check_exact`. -/
def Cache.check_exact (c : Cache) (prompt : String) : Option String :=
  if c.redisUp then c.exact.lookup (exact_key prompt) else none

/-- `Cache._store_exact` (`setex` overwrites; cons shadows in lookup). -/
def Cache.store_exact (c : Cache) (prompt response : String) : Cache :=
  if c.redisUp then { c with exact := (exact_key prompt, response) :: c.exact } else c

/-- The best-similarity scan inside `Cache._check_semantic`: iterate the
index, track the strictly-largest similarity and its entry id, starting from
`(0.0, None)`. -/
def semBest (B : EmbedBackend) (c : Cache) (qv : List ℚ) : ℚ × Option Nat :=
  c.semIndex.foldl
    (fun acc eid =>
      match c.semRecords.lookup eid with
      | none => acc
      | some sr =>
        let s := B.cosine qv sr.vec
        if acc.1 < s then (s, some eid) else acc)
    (0, none)

/-- `Cache._check_semantic`: no-op without Redis or embedding backend;
otherwise scan all stored vectors and return the best response when its
similarity reaches the threshold. -/
def Cache.check_semantic (cfg : CacheConfig) (B : EmbedBackend) (c : Cache)
    (prompt : String) : Option String :=
  if c.redisUp then
    match B.embed prompt with
    | none => none
    | some qv =>
      if c.semIndex.isEmpty then none
      else
        let best := semBest B c qv
        if cfg.threshold ≤ best.1 then
          match best.2 with
          | some eid => (c.semRecords.lookup eid).map (fun sr => sr.response)
          | none => none
        else none
  else none

/-- `Cache.check`: exact tier first; on a semantic hit the response is
promoted to the exact tier under the new prompt's key. -/
def Cache.check (cfg : CacheConfig) (B : EmbedBackend) (c : Cache)
    (prompt : String) : Option String × Cache :=
  match c.check_exact prompt with
  | some r => (some r, { c with hits_exact := c.hits_exact + 1 })
  | none =>
    match Cache.check_semantic cfg B c prompt with
    | some r =>
      (some r, Cache.store_exact { c with hits_semantic := c.hits_semantic + 1 } prompt r)
    | none => (none, { c with misses := c.misses + 1 })

/-- `Cache._store_semantic`: when the index already has at least
`maxEntries` entries, `lpop` the oldest id and delete its record, then insert
the new record and `rpush` its id. -/
def Cache.store_semantic (cfg : CacheConfig) (B : EmbedBackend) (c : Cache)
    (prompt response : String) : Cache :=
  if c.redisUp then
    match B.embed prompt with
    | none => c
    | some vec =>
      let c1 :=
        if cfg.maxEntries ≤ c.semIndex.length then
          match c.semIndex with
          | [] => c
          | old :: rest =>
            { c with semIndex := rest,
                     semRecords := c.semRecords.filter (fun p => p.1 != old) }
        else c
      let eid := c1.nextId
      { c1 with
        semRecords := (eid, { vec := vec, response := response, prompt := prompt.take 200 })
          :: c1.semRecords,
        semIndex := c1.semIndex ++ [eid],
        nextId := c1.nextId + 1 }
  else c

/-- `Cache.store`: write both tiers. -/
def Cache.store (cfg : CacheConfig) (B : EmbedBackend) (c : Cache)
    (prompt response : String) : Cache :=
  Cache.store_semantic cfg B (c.store_exact prompt response) prompt response

/-! ## Thrifty inference router (`src/inference.py`) -/

/-- One row of the SQLite `token_log` table (`_log_tokens`).  `round(cost, 8)`
is dropped: costs are exact rationals here. -/
structure LedgerEntry where
  provider : String
  model : String
  tokens_in : Nat
  tokens_out : Nat
  cost_usd : ℚ
  cache_hit : Bool
deriving DecidableEq

/-- The `(text, tokens_in, tokens_out, cost)` quadruple returned by
`_call_litellm` on success. -/
structure LLMResult where
  text : String
  tokens_in : Nat
  tokens_out : Nat
  cost : ℚ
deriving DecidableEq

/-- The tier rotation lists of `src/inference.py` lines 73-89, at their
default provider strings. -/
def PROVIDERS : List (String × List String) :=
  [("high", ["gemini/gemini-1.5-pro",
             "openrouter/google/gemini-pro",
             "openrouter/mistralai/mistral-7b-instruct"]),
   ("low",  ["openrouter/mistralai/mistral-7b-instruct",
             "openrouter/mistralai/mistral-7b-instruct:free",
             "openrouter/meta-llama/llama-3-8b-instruct:free"]),
   ("free", ["openrouter/mistralai/mistral-7b-instruct:free",
             "openrouter/meta-llama/llama-3-8b-instruct:free",
             "openrouter/mistralai/mistral-7b-instruct"])]

def MAX_RETRIES : Nat := 3

/-- Observable side effects of one `ask` call, in program order: the cache
query, provider attempts (`_call_litellm` invocations), the cache write, and
token-log inserts. -/
inductive AskEvent
  | cacheCheck (prompt : String)
  | providerAttempt (model : String) (attempt : Nat)
  | cacheStore (prompt response : String)
  | ledgerWrite (e : LedgerEntry)
deriving DecidableEq

/-- The token-log rows among a list of events. -/
def ledgerOf (evs : List AskEvent) : List LedgerEntry :=
  evs.filterMap (fun e => match e with
    | AskEvent.ledgerWrite l => some l
    | _ => none)

/-- A provider-call oracle: model name and 0-based attempt number to either a
result or the exception message the adapter raised. -/
def Oracle : Type := String → Nat → Except String LLMResult

/-- The inner retry loop of `_ask_with_rotation`: `k` attempts remaining,
`a` the current attempt index, `last` the last exception seen.  Returns the
result (if any), the attempt events, and the final last exception. -/
def tryAttempts (oracle : Oracle) (model : String) :
    Nat → Nat → Option String → Option LLMResult × List AskEvent × Option String
  | 0, _, last => (none, [], last)
  | k + 1, a, last =>
    match oracle model a with
    | Except.ok r => (some r, [AskEvent.providerAttempt model a], last)
    | Except.error e =>
      match tryAttempts oracle model k (a + 1) (some e) with
      | (res, evs, lst) => (res, AskEvent.providerAttempt model a :: evs, lst)

/-- The outer provider loop of `_ask_with_rotation`: first provider whose
retries succeed wins; the last exception is threaded through. -/
def rotationLoop (oracle : Oracle) :
    List String → Option String → Option (LLMResult × String) × List AskEvent × Option String
  | [], last => (none, [], last)
  | m :: rest, last =>
    match tryAttempts oracle m MAX_RETRIES 0 last with
    | (some r, evs, lst) => (some (r, m), evs, lst)
    | (none, evs, lst) =>
      match rotationLoop oracle rest lst with
      | (res, evs2, lst2) => (res, evs ++ evs2, lst2)

/-- Python's `str` of the optional last exception inside the f-string. -/
def optExcStr : Option String → String
  | none => "None"
  | some s => s

/-- The rotation list `_ask_with_rotation` uses:
`rotation = PROVIDERS.get(tier, PROVIDERS["low"])`. -/
def rotation_of (tier : String) : List String :=
  match PROVIDERS.lookup tier with
  | some r => r
  | none => (PROVIDERS.lookup "low").getD []

/-- `_ask_with_rotation(prompt, tier, ...)`: when every provider exhausts its
retries the `RuntimeError` message is returned as `Except.error`. -/
def ask_with_rotation (oracle : Oracle) (tier : String) :
    Except String (LLMResult × String) × List AskEvent :=
  match rotationLoop oracle (rotation_of tier) none with
  | (some rm, evs, _) => (Except.ok rm, evs)
  | (none, evs, last) =>
    (Except.error
      ("All providers in tier '" ++ tier ++ "' failed. Last error: " ++ optExcStr last),
     evs)

/-- `model.split("/")[0] if "/" in model else model`. -/
def providerName (model : String) : String :=
  if strContains model "/" then (model.splitOn "/").headD model else model

/-- `full_prompt = f"{system}\n\n{prompt}" if system else prompt` (the empty
system string is falsy). -/
def fullPrompt (system prompt : String) : String :=
  if system ≠ "" then system ++ "\n\n" ++ prompt else prompt

/-- The ledger row written on a cache hit (`ask`, `src/inference.py`
lines 361-368). -/
def cacheHitEntry : LedgerEntry :=
  { provider := "cache", model := "cache", tokens_in := 0, tokens_out := 0,
    cost_usd := 0, cache_hit := true }

/-- The live-call tail of `ask` (after the cache check): rotation, the
`RuntimeError` catch returning `"[Inference error: ...]"`, the cache write
(skipped under `skip_cache`), and the token-log insert. -/
def askLive (cfg : CacheConfig) (B : EmbedBackend) (oracle : Oracle) (c : Cache)
    (full tier : String) (skip_cache : Bool) (evs0 : List AskEvent) :
    Except String String × Cache × List AskEvent :=
  match ask_with_rotation oracle tier with
  | (Except.error e, evs) =>
    (Except.ok ("[Inference error: " ++ e ++ "]"), c, evs0 ++ evs)
  | (Except.ok (r, model), evs) =>
    (Except.ok r.text,
     (if skip_cache then c else Cache.store cfg B c full r.text),
     evs0 ++ evs ++
       (if skip_cache then [] else [AskEvent.cacheStore full r.text]) ++
       [AskEvent.ledgerWrite
         { provider := providerName model, model := model,
           tokens_in := r.tokens_in, tokens_out := r.tokens_out,
           cost_usd := r.cost, cache_hit := false }])

/-- `ask(prompt, tier, system, ..., skip_cache)` from `src/inference.py`
lines 324-402.  `Except.error` is the `ValueError` raised on an unknown tier;
every other exit returns `Except.ok` text.  The returned `Cache` is the cache
state after the call and the event list records its side effects in order. -/
def ask (cfg : CacheConfig) (B : EmbedBackend) (oracle : Oracle) (c : Cache)
    (prompt tier system : String) (skip_cache : Bool) :
    Except String String × Cache × List AskEvent :=
  if (PROVIDERS.lookup tier).isNone then
    (Except.error ("Unknown tier '" ++ tier ++ "'. Must be one of: ['high', 'low', 'free']"),
     c, [])
  else
    if skip_cache then
      askLive cfg B oracle c (fullPrompt system prompt) tier skip_cache []
    else
      match Cache.check cfg B c (fullPrompt system prompt) with
      | (some cached, c1) =>
        (Except.ok cached, c1,
         [AskEvent.cacheCheck (fullPrompt system prompt), AskEvent.ledgerWrite cacheHitEntry])
      | (none, c1) =>
        askLive cfg B oracle c1 (fullPrompt system prompt) tier skip_cache
          [AskEvent.cacheCheck (fullPrompt system prompt)]

/-! ## Skill dispatcher: findings and reports (`src/daemon.py`, `src/telegram.py`) -/

/-- A normalised finding as accumulated by `_extract_findings` and consumed by
`Notifier.send_report`. -/
structure Finding where
  tool : String
  severity : String
  title : String
  detail : String
deriving DecidableEq

/-- The sort key of `Notifier.send_report`:
`["critical","high","medium","low","info"].index(sev)` when present, else 99. -/
def severity_rank (sev : String) : Nat :=
  (["critical", "high", "medium", "low", "info"].findIdx? (fun s => s == sev)).getD 99

/-- `run_skill`: `top_findings = [f.get("title", str(f)) for f in all_findings[:5]]`
(`src/daemon.py` line 328).  The first five accumulated findings, in
accumulation order. -/
def report_top_findings (all_findings : List Finding) : List String :=
  (all_findings.take 5).map (fun f => f.title)

/-- The findings whose titles the report lists, in listed order. -/
def report_listed_findings (all_findings : List Finding) : List Finding :=
  all_findings.take 5

/-- Is a list of severity ranks non-decreasing (i.e. the findings appear in
non-increasing severity order critical ≥ high ≥ medium ≥ low ≥ info)? -/
def sevSorted : List Nat → Bool
  | [] => true
  | [_] => true
  | a :: b :: t => decide (a ≤ b) && sevSorted (b :: t)

def sevRanks (l : List Finding) : List Nat :=
  l.map (fun f => severity_rank f.severity)

/-- The severity histogram of `Notifier.send_report`: a Python dict built in
first-appearance order, severities lowercased. -/
def bumpCount (acc : List (String × Nat)) (k : String) : List (String × Nat) :=
  if acc.any (fun p => p.1 == k) then
    acc.map (fun p => if p.1 == k then (p.1, p.2 + 1) else p)
  else acc ++ [(k, 1)]

def sev_counts (findings : List Finding) : List (String × Nat) :=
  findings.foldl (fun acc f => bumpCount acc (strLower f.severity)) []

/-- The `sorted(sev_counts.items(), key=...)` call building the severity line
of the report (`src/telegram.py` line 531), modelled by insertion sort on the
same key. -/
def sev_line_entries (findings : List Finding) : List (String × Nat) :=
  List.insertionSort (fun a b => severity_rank a.1 ≤ severity_rank b.1) (sev_counts findings)

/-! ## MCP tool caller (`src/daemon.py` lines 195-240) -/

/-- A JSON scalar appearing in tool payloads. -/
inductive JVal
  | s (v : String)
  | n (v : Int)
  | b (v : Bool)
deriving DecidableEq

/-- A tool POST body: a JSON object of scalars. -/
def Payload : Type := List (String × JVal)

/-- `TOOL_ENDPOINT_MAP`: tool name to endpoint path; `suggest_next` maps to
`None` (handled internally, no MCP call). -/
def TOOL_ENDPOINT_MAP : List (String × Option String) :=
  [("amass",     some "api/tools/amass-enum"),
   ("rustscan",  some "api/tools/rustscan-fast-scan"),
   ("masscan",   some "api/tools/masscan-high-speed"),
   ("nuclei",    some "api/tools/nuclei"),
   ("nmap",      some "api/tools/nmap-scan"),
   ("gobuster",  some "api/tools/gobuster"),
   ("ffuf",      some "api/tools/ffuf"),
   ("httpx",     some "api/tools/httpx"),
   ("subfinder", some "api/tools/subfinder"),
   ("suggest_next", none)]

/-- The JSON dict `call_mcp_tool` returns, restricted to the fields the
dispatcher reads. -/
structure McpResult where
  success : Bool
  tool : String
  internal : Bool := false
  dry_run : Bool := false
  data : Option Payload := none
  error : Option String := none

/-- Outcome of the HTTP POST inside `call_mcp_tool`: parsed JSON body, an
HTTP status error (`raise_for_status`), or a transport exception. -/
inductive HttpResp
  | ok (body : McpResult)
  | statusError (code : Nat) (text : String)
  | exn (msg : String)

/-- `call_mcp_tool(tool, payload, dry_run)`.  The second component records
whether an HTTP request was issued.  `TOOL_ENDPOINT_MAP.get(tool)` yields
`None` both for missing keys and for `suggest_next`, hence `Option.join`. -/
def call_mcp_tool (http : String → Payload → HttpResp) (tool : String)
    (payload : Payload) (dry_run : Bool) : McpResult × Bool :=
  match (TOOL_ENDPOINT_MAP.lookup tool).join with
  | none =>
    ({ success := true, tool := tool, internal := true, data := some payload }, false)
  | some endpoint =>
    if dry_run then ({ success := true, tool := tool, dry_run := true }, false)
    else
      match http endpoint payload with
      | HttpResp.ok body => (body, true)
      | HttpResp.statusError code text =>
        ({ success := false, tool := tool,
           error := some ("HTTP " ++ toString code ++ ": " ++ text) }, true)
      | HttpResp.exn msg =>
        ({ success := false, tool := tool, error := some msg }, true)

/-! ## Approval gate and cancellation (`src/telegram.py`, `src/daemon.py`) -/

/-- The dict written to a resolved approval future:
`{"action": ..., "choice": ...}`.  The `cancel` sentinel in `cmd_cancel`
writes `{"action": "cancel"}`, i.e. no choice. -/
structure ApprovalOutcome where
  action : String
  choice : Option String
deriving DecidableEq

/-- An `asyncio.Future` as seen by the approval table: still pending, or
resolved with its outcome. -/
inductive FutureState
  | pending
  | resolved (outcome : ApprovalOutcome)
deriving DecidableEq

/-- The module-level mutable state of `src/telegram.py`:
`_pending_approvals` and `_cancelled_jobs`. -/
structure TgState where
  pending_approvals : List (String × FutureState)
  cancelled_jobs : List String
deriving DecidableEq

/-- `future.set_result(o)` on the future registered under `k`. -/
def set_result (pa : List (String × FutureState)) (k : String) (o : ApprovalOutcome) :
    List (String × FutureState) :=
  pa.map (fun p => if p.1 == k then (p.1, FutureState.resolved o) else p)

/-- `_cancelled_jobs.add(job_id)` (set add). -/
def add_cancel (l : List String) (job_id : String) : List String :=
  if l.contains job_id then l else job_id :: l

/-- `is_cancelled(job_id)`. -/
def is_cancelled (st : TgState) (job_id : String) : Bool :=
  st.cancelled_jobs.contains job_id

/-- The approval id `_handle_suggest_next` registers its gate under:
`f"suggest_{job.id}"` (`src/daemon.py` line 511). -/
def suggest_approval_id (job_id : String) : String := "suggest_" ++ job_id

/-- `cmd_cancel` (`src/telegram.py` lines 324-345): look up the sentinel key
`f"cancel:{job_id}"` among pending approvals; if such a future exists and is
not done, resolve it with `{"action": "cancel"}`, else add the job to the
global cancellation set.  Returns the new state and the reply text. -/
def cmd_cancel (st : TgState) (job_id : String) : TgState × String :=
  match st.pending_approvals.lookup ("cancel:" ++ job_id) with
  | some FutureState.pending =>
    ({ st with pending_approvals :=
        (set_result st.pending_approvals ("cancel:" ++ job_id)
          ({ action := "cancel", choice := none } : ApprovalOutcome)) },
     "🚫 Cancellation signal sent for `" ++ job_id ++ "`.")
  | _ =>
    ({ st with cancelled_jobs := add_cancel st.cancelled_jobs job_id },
     "🚫 Job `" ++ job_id ++ "` marked for cancellation.")

/-! ## suggest_next and the null notifier (`src/daemon.py` lines 470-523, 733-747) -/

/-- What `_handle_suggest_next` did: the choices offered, whether it called
`request_approval` (i.e. blocked on the gate), and the gate outcome if so. -/
structure SuggestOutcome where
  choices : List String
  requested : Bool
  result : Option ApprovalOutcome
deriving DecidableEq

/-- `_NullNotifier.request_approval`: auto-approve without any wait. -/
def nullNotifier_request_approval (_approval_id _prompt : String)
    (_choices : List String) (_timeout_sec : Nat) : ApprovalOutcome :=
  { action := "approve", choice := none }

/-- `_handle_suggest_next(job, notifier, findings, context)`.  `gate` is the
notifier's `request_approval`; `chat_id`/`bot_token` are the module globals
`TELEGRAM_CHAT_ID` and `BOT_TOKEN` (0 and "" are falsy).  The rule-based
suggestions use no model call. -/
def handle_suggest_next (chat_id : Int) (bot_token : String)
    (gate : String → String → List String → Nat → ApprovalOutcome)
    (job_id target : String) (findings : List Finding) : SuggestOutcome :=
  let severities := findings.map (fun f => strLower f.severity)
  let has_critical := severities.contains "critical"
  let has_high := severities.contains "high"
  let subs := (((findings.filter (fun f => f.tool == "amass")).map
    (fun f => f.title)).take 5)
  let ports := (findings.filter (fun f => f.tool == "rustscan")).map (fun f => f.title)
  let s1 : List String :=
    if has_critical || has_high then ["nuclei_deep (critical/high templates only)"] else []
  let s2 := if subs.isEmpty then s1
    else s1 ++ ["subdomain_enum (" ++ toString subs.length ++ " subs found)"]
  let s3 := if ports.contains "80" || ports.contains "443" then
    s2 ++ ["web_vuln_scan (HTTP found)"] else s2
  let s4 := if ports.contains "22" then s3 ++ ["ssh_audit"] else s3
  let suggestions := if s4.isEmpty then ["manual_review"] else s4
  let choices := suggestions.take 4
  let prompt :=
    "🎯 *Job `" ++ job_id ++ "` complete for `" ++ target ++ "`*\n" ++
    "Found: " ++ toString findings.length ++ " items · " ++
    (if has_critical then "🔴 CRITICAL" else if has_high then "🟠 HIGH" else "🟡 MEDIUM") ++
    "\n\nSelect next action:"
  if chat_id ≠ 0 ∧ bot_token ≠ "" then
    let r := gate (suggest_approval_id job_id) prompt choices 120
    { choices := choices, requested := true, result := some r }
  else
    { choices := choices, requested := false, result := none }

/-! ## Concrete fixtures used by witnesses and counterexamples -/

/-- A cache whose Redis server is unreachable (both clients `None`). -/
def emptyCache : Cache :=
  { redisUp := false, exact := [], semIndex := [], semRecords := [], nextId := 0,
    hits_exact := 0, hits_semantic := 0, misses := 0 }

/-- The `_EMBED_BACKEND == "none"` situation: no embedding backend. -/
def noEmbed : EmbedBackend := { embed := fun _ => none, cosine := fun _ _ => 0 }

/-- A provider oracle on which every adapter call raises. -/
def downOracle : Oracle := fun _ _ => Except.error "adapter down"

/-- A backend whose embedding of every prompt is the same unit vector. -/
def semBackend : EmbedBackend := { embed := fun _ => some [1], cosine := fun _ _ => 1 }

/-- A live cache holding one semantic entry and nothing in the exact tier. -/
def semCache : Cache :=
  { redisUp := true, exact := [], semIndex := [0],
    semRecords := [(0, { vec := [1], response := "resp", prompt := "near" })],
    nextId := 1, hits_exact := 0, hits_semantic := 0, misses := 0 }

/-- A live cache with one exact-tier entry for prompt `2+2?`. -/
def hitCache : Cache :=
  { redisUp := true, exact := [(exact_key "2+2?", "4")], semIndex := [], semRecords := [],
    nextId := 0, hits_exact := 0, hits_semantic := 0, misses := 0 }

/-- The telegram state of a job `abc123` blocked inside its `suggest_next`
approval gate. -/
def st_gate : TgState :=
  { pending_approvals := [(suggest_approval_id "abc123", FutureState.pending)],
    cancelled_jobs := [] }

/-- An `info` finding as `_extract_findings` produces for an amass subdomain. -/
def f_info : Finding :=
  { tool := "amass", severity := "info", title := "a.example.com", detail := "" }

/-- A `high` finding as `_extract_findings` produces for a nuclei hit. -/
def f_high : Finding :=
  { tool := "nuclei", severity := "high", title := "T1", detail := "" }

/-! ## Claim C10 -/

/-- C10: for every tier string outside `{high, low, free}`, `ask` raises a
`ValueError` before any cache lookup, ledger write or provider call: the
result is `Except.error`, the cache state is untouched and the event trace is
empty. -/
theorem ask_invalid_tier_valueerror (cfg : CacheConfig) (B : EmbedBackend) (oracle : Oracle)
    (c : Cache) (prompt tier system : String) (skip_cache : Bool)
    (h : tier ≠ "high" ∧ tier ≠ "low" ∧ tier ≠ "free") :
    ∃ msg, ask cfg B oracle c prompt tier system skip_cache = (Except.error msg, c, []) := by
  have hmem : tier ∉ PROVIDERS.map Prod.fst := by
    simp [PROVIDERS, h.1, h.2.1, h.2.2]
  have hl : PROVIDERS.lookup tier = none := lookup_eq_none_of_not_mem_keys _ _ hmem
  refine ⟨"Unknown tier '" ++ tier ++ "'. Must be one of: ['high', 'low', 'free']", ?_⟩
  unfold ask
  rw [hl]
  rfl

/-- Witness for C10 at the concrete tier string `medium`. -/
theorem ask_invalid_tier_valueerror_witness :
    ∃ msg, ask defaultCacheConfig noEmbed downOracle emptyCache "p" "medium" "" false =
      (Except.error msg, emptyCache, []) :=
  ask_invalid_tier_valueerror defaultCacheConfig noEmbed downOracle emptyCache
    "p" "medium" "" false ⟨by decide, by decide, by decide⟩

/-! ## Claim C5 -/

/-- C5: a step whose tool is not a key of `TOOL_ENDPOINT_MAP` makes
`call_mcp_tool` perform no HTTP request and return the synthetic internal
result `{"success": True, "tool": tool, "internal": True, "data": payload}`. -/
theorem call_mcp_tool_unknown_tool_internal_noop (http : String → Payload → HttpResp)
    (tool : String) (payload : Payload) (dry_run : Bool)
    (h : tool ∉ TOOL_ENDPOINT_MAP.map Prod.fst) :
    call_mcp_tool http tool payload dry_run =
      ({ success := true, tool := tool, internal := true, data := some payload }, false) := by
  have hl : TOOL_ENDPOINT_MAP.lookup tool = none := lookup_eq_none_of_not_mem_keys _ _ h
  unfold call_mcp_tool
  rw [hl]
  rfl

/-- Witness for C5 at the unknown tool name `sqlmap`. -/
theorem call_mcp_tool_unknown_tool_internal_noop_witness :
    call_mcp_tool (fun _ _ => HttpResp.exn "connection refused") "sqlmap" [] false =
      ({ success := true, tool := "sqlmap", internal := true, data := some [] }, false) :=
  call_mcp_tool_unknown_tool_internal_noop _ "sqlmap" [] false (by decide)

/-! ## Claim C2 -/

theorem cancel_key_ne_suggest_key (a b : String) : "cancel:" ++ a ≠ "suggest_" ++ b := by
  intro h
  have hd : ("cancel:" ++ a).data = ("suggest_" ++ b).data := by rw [h]
  rw [String.data_append, String.data_append] at hd
  have h1 : "cancel:".data = ['c', 'a', 'n', 'c', 'e', 'l', ':'] := rfl
  have h2 : "suggest_".data = ['s', 'u', 'g', 'g', 'e', 's', 't', '_'] := rfl
  rw [h1, h2] at hd
  simp at hd

/-- C2 counterexample: job `abc123` is blocked inside its `suggest_next`
approval gate (registered under `suggest_abc123`), the operator issues
`/cancel abc123`, and the gate's future is still pending afterwards — the
cancel sentinel key `cancel:abc123` matches no registered gate, so the job is
merely added to the cancellation set and the reply is the
`marked for cancellation` branch. -/
theorem cmd_cancel_leaves_gate_pending :
    ((cmd_cancel st_gate "abc123").1.pending_approvals.lookup
        (suggest_approval_id "abc123") = some FutureState.pending)
    ∧ (cmd_cancel st_gate "abc123").1.cancelled_jobs = ["abc123"]
    ∧ (cmd_cancel st_gate "abc123").2 = "🚫 Job `abc123` marked for cancellation." :=
  ⟨by decide, by decide, by decide⟩

/-- C2 amended: an operator `/cancel job_id` issued while approval gates are
registered only under `suggest_`-prefixed ids (as every gate created by
`_handle_suggest_next` is) resolves no pending approval: the pending table is
unchanged, and the job is instead added to the cancellation set that the
dispatcher polls at step boundaries. -/
theorem cmd_cancel_flags_job_only (st : TgState) (job_id : String)
    (h : ∀ k ∈ st.pending_approvals.map Prod.fst, ∃ j, k = suggest_approval_id j) :
    (cmd_cancel st job_id).1.pending_approvals = st.pending_approvals
    ∧ is_cancelled (cmd_cancel st job_id).1 job_id = true := by
  have hnm : ("cancel:" ++ job_id) ∉ st.pending_approvals.map Prod.fst := by
    intro hm
    obtain ⟨j, hj⟩ := h _ hm
    exact cancel_key_ne_suggest_key job_id j hj
  have hl := lookup_eq_none_of_not_mem_keys _ _ hnm
  unfold cmd_cancel
  rw [hl]
  refine ⟨rfl, ?_⟩
  unfold is_cancelled add_cancel
  by_cases hc : st.cancelled_jobs.contains job_id = true
  · rw [if_pos hc]; exact hc
  · rw [if_neg hc]; simp

/-- Witness for the amended C2 at the concrete gate state `st_gate`. -/
theorem cmd_cancel_flags_job_only_witness :
    (cmd_cancel st_gate "abc123").1.pending_approvals = st_gate.pending_approvals
    ∧ is_cancelled (cmd_cancel st_gate "abc123").1 "abc123" = true :=
  cmd_cancel_flags_job_only st_gate "abc123" (by
    intro k hk
    simp only [st_gate, List.map_cons, List.map_nil, List.mem_cons,
      List.not_mem_nil, or_false] at hk
    exact ⟨"abc123", hk⟩)

/-! ## Claim C3 -/

/-- C3 counterexample: the recon chain accumulates the amass `info` finding
before the nuclei `high` finding, so the report's top-findings list shows
`a.example.com` (info) before `T1` (high) — not a non-increasing severity
order. -/
theorem report_top_findings_not_severity_sorted :
    report_top_findings [f_info, f_high] = ["a.example.com", "T1"]
    ∧ sevSorted (sevRanks (report_listed_findings [f_info, f_high])) = false :=
  ⟨by decide, by decide⟩

/-- C3 amended: in every emitted report the severity-count line is ordered
critical ≥ high ≥ medium ≥ low ≥ info (unknown labels last); the top-findings
list is the first five findings in accumulation order and need not be
severity-sorted. -/
theorem report_severity_line_sorted (findings : List Finding) :
    (sev_line_entries findings).Pairwise
      (fun a b => severity_rank a.1 ≤ severity_rank b.1) := by
  haveI : IsTotal (String × Nat) (fun a b => severity_rank a.1 ≤ severity_rank b.1) :=
    ⟨fun a b => Nat.le_total _ _⟩
  haveI : IsTrans (String × Nat) (fun a b => severity_rank a.1 ≤ severity_rank b.1) :=
    ⟨fun _ _ _ hab hbc => Nat.le_trans hab hbc⟩
  exact List.sorted_insertionSort _ _

/-! ## Claim C6 -/

/-- C6 counterexample: a CVSS score of 0.05 is greater than 0, yet the scorer
returns `info`, not `low` — the source's lowest bucket starts at 0.1, not
strictly above 0. -/
theorem score_severity_positive_cvss_not_low :
    (0 : ℚ) < 1/20 ∧ score_severity "" "" (some (1/20)) = "info" := by
  constructor
  · norm_num
  · norm_num [score_severity, CVSS_SEVERITY, List.find?]

/-- C6 amended: with an extractable CVSS score the buckets are ≥ 9 critical,
≥ 7 high, ≥ 4 medium, ≥ 0.1 low, else info; without one the keyword lists
apply in order (checked here on representative alerts), a CVE-YYYY-NNNN match
yields low, and otherwise info. -/
theorem score_severity_cvss_buckets (title summary : String) (c : ℚ) :
    score_severity title summary (some c) =
      (if 9 ≤ c then "critical" else if 7 ≤ c then "high"
       else if 4 ≤ c then "medium" else if 1/10 ≤ c then "low" else "info")
    ∧ score_severity "Log4Shell PoC released" "" none = "critical"
    ∧ score_severity "Privilege escalation in app X" "" none = "high"
    ∧ score_severity "Minor parsing bug" "tracked as CVE-2024-12345" none = "low"
    ∧ score_severity "hello" "world" none = "info" := by
  refine ⟨?_, by decide, by decide, by decide, by decide⟩
  by_cases h1 : (9:ℚ) ≤ c <;> by_cases h2 : (7:ℚ) ≤ c <;> by_cases h3 : (4:ℚ) ≤ c <;>
    by_cases h4 : (10⁻¹:ℚ) ≤ c <;>
    simp [score_severity, CVSS_SEVERITY, List.find?, h1, h2, h3, h4]

/-! ## Claim C7 -/

/-- C7: when `check(P)` answers `R` through a semantic-tier hit, `R` is
written to the exact tier under `P`'s key, so the immediately following
`check(P)` answers `R` from the exact tier. -/
theorem semantic_hit_promotes_to_exact (cfg : CacheConfig) (B : EmbedBackend) (c : Cache)
    (P R : String)
    (hex : c.check_exact P = none)
    (hsem : Cache.check_semantic cfg B c P = some R) :
    (Cache.check cfg B c P).1 = some R
    ∧ ((Cache.check cfg B c P).2.check_exact P = some R)
    ∧ (Cache.check cfg B (Cache.check cfg B c P).2 P).1 = some R := by
  have hup : c.redisUp = true := by
    by_contra hru
    unfold Cache.check_semantic at hsem
    rw [if_neg hru] at hsem
    cases hsem
  have h1 : Cache.check cfg B c P =
      (some R, Cache.store_exact { c with hits_semantic := c.hits_semantic + 1 } P R) := by
    unfold Cache.check
    rw [hex, hsem]
  have hst : Cache.store_exact { c with hits_semantic := c.hits_semantic + 1 } P R =
      ({ c with
          exact := (exact_key P, R) :: c.exact,
          hits_semantic := c.hits_semantic + 1 } : Cache) := by
    unfold Cache.store_exact
    rw [if_pos hup]
  have h2 : ({ c with
      exact := (exact_key P, R) :: c.exact,
      hits_semantic := c.hits_semantic + 1 } : Cache).check_exact P = some R := by
    unfold Cache.check_exact
    rw [if_pos hup]
    simp [List.lookup]
  refine ⟨by rw [h1], ?_, ?_⟩
  · rw [h1, hst]
    exact h2
  · rw [h1, hst]
    unfold Cache.check
    rw [h2]

/-- Witness for C7: a concrete semantic hit on `semCache` promotes `resp`. -/
theorem semantic_hit_promotes_to_exact_witness :
    (Cache.check defaultCacheConfig semBackend semCache "P").1 = some "resp"
    ∧ ((Cache.check defaultCacheConfig semBackend semCache "P").2.check_exact "P" = some "resp")
    ∧ (Cache.check defaultCacheConfig semBackend
        (Cache.check defaultCacheConfig semBackend semCache "P").2 "P").1 = some "resp" :=
  semantic_hit_promotes_to_exact defaultCacheConfig semBackend semCache "P" "resp"
    rfl
    (by norm_num [Cache.check_semantic, defaultCacheConfig, semBackend, semCache, semBest,
      List.foldl, List.lookup])

/-! ## Claim C8 -/

theorem store_exact_semIndex (c : Cache) (p r : String) :
    (Cache.store_exact c p r).semIndex = c.semIndex := by
  unfold Cache.store_exact
  split <;> rfl

theorem store_semantic_bound (cfg : CacheConfig) (B : EmbedBackend) (c : Cache) (p r : String)
    (h1 : 1 ≤ cfg.maxEntries) (h2 : c.semIndex.length ≤ cfg.maxEntries) :
    (Cache.store_semantic cfg B c p r).semIndex.length ≤ cfg.maxEntries := by
  unfold Cache.store_semantic
  by_cases hru : c.redisUp = true
  · rw [if_pos hru]
    cases hemb : B.embed p with
    | none => exact h2
    | some vec =>
      dsimp only
      by_cases hfull : cfg.maxEntries ≤ c.semIndex.length
      · rw [if_pos hfull]
        cases hidx : c.semIndex with
        | nil =>
          dsimp only
          rw [hidx]
          simpa using h1
        | cons old rest =>
          dsimp only
          rw [hidx] at h2
          simp only [List.length_cons] at h2
          simp only [List.length_append, List.length_cons, List.length_nil]
          omega
      · rw [if_neg hfull]
        simp only [List.length_append, List.length_cons, List.length_nil]
        omega
  · rw [if_neg hru]
    exact h2

theorem check_semIndex (cfg : CacheConfig) (B : EmbedBackend) (c : Cache) (p : String) :
    (Cache.check cfg B c p).2.semIndex = c.semIndex := by
  unfold Cache.check
  cases hex : c.check_exact p with
  | some r => rfl
  | none =>
    cases hsem : Cache.check_semantic cfg B c p with
    | some r => rw [store_exact_semIndex]
    | none => rfl

/-- C8: the semantic tier's index never exceeds
`CACHE_SEMANTIC_MAX_ENTRIES`: a `store` on a state within the bound stays
within it (the oldest entry is evicted first when the index is full), and a
`check` never changes the index. -/
theorem semantic_index_bounded (cfg : CacheConfig) (B : EmbedBackend) (c : Cache)
    (p r : String)
    (h1 : 1 ≤ cfg.maxEntries) (h2 : c.semIndex.length ≤ cfg.maxEntries) :
    (Cache.store cfg B c p r).semIndex.length ≤ cfg.maxEntries
    ∧ (Cache.check cfg B c p).2.semIndex = c.semIndex := by
  constructor
  · unfold Cache.store
    apply store_semantic_bound cfg B _ p r h1
    rw [store_exact_semIndex]
    exact h2
  · exact check_semIndex cfg B c p

/-- Witness for C8 at the concrete one-entry semantic cache and the default
bound of 2000. -/
theorem semantic_index_bounded_witness :
    (Cache.store defaultCacheConfig semBackend semCache "p" "r").semIndex.length ≤
      defaultCacheConfig.maxEntries
    ∧ (Cache.check defaultCacheConfig semBackend semCache "p").2.semIndex =
      semCache.semIndex :=
  semantic_index_bounded defaultCacheConfig semBackend semCache "p" "r"
    (by decide) (by decide)

/-! ## Claim C9 -/

/-- C9: with the operator channel unconfigured (chat id 0 or empty bot
token), `_handle_suggest_next` never registers or waits on an approval gate,
and the null notifier's `request_approval` returns `approve` for every
request — no gate can block a job. -/
theorem no_operator_channel_auto_approve (chat_id : Int) (bot_token : String)
    (gate : String → String → List String → Nat → ApprovalOutcome)
    (job_id target : String) (findings : List Finding)
    (h : chat_id = 0 ∨ bot_token = "") :
    (handle_suggest_next chat_id bot_token gate job_id target findings).requested = false
    ∧ (handle_suggest_next chat_id bot_token gate job_id target findings).result = none
    ∧ (∀ a p cs t, nullNotifier_request_approval a p cs t =
        { action := "approve", choice := none }) := by
  have hcond : ¬ (chat_id ≠ 0 ∧ bot_token ≠ "") := by
    rcases h with h | h <;> simp [h]
  refine ⟨?_, ?_, fun _ _ _ _ => rfl⟩ <;>
  · simp only [handle_suggest_next]
    rw [if_neg hcond]

/-- Witness for C9 with chat id 0 and a gate that would deny if consulted. -/
theorem no_operator_channel_auto_approve_witness :
    (handle_suggest_next 0 "" (fun _ _ _ _ => { action := "deny", choice := none })
        "abc123" "example.com" [f_info, f_high]).requested = false
    ∧ (handle_suggest_next 0 "" (fun _ _ _ _ => { action := "deny", choice := none })
        "abc123" "example.com" [f_info, f_high]).result = none
    ∧ (∀ a p cs t, nullNotifier_request_approval a p cs t =
        { action := "approve", choice := none }) :=
  no_operator_channel_auto_approve 0 ""
    (fun _ _ _ _ => { action := "deny", choice := none })
    "abc123" "example.com" [f_info, f_high] (Or.inl rfl)

/-! ## Ledger lemmas about the rotation loop -/

theorem ledgerOf_append (a b : List AskEvent) :
    ledgerOf (a ++ b) = ledgerOf a ++ ledgerOf b := by
  unfold ledgerOf
  exact List.filterMap_append _ _ _

theorem ledgerOf_tryAttempts (oracle : Oracle) (m : String) (k : Nat) :
    ∀ (a : Nat) (last : Option String),
      ledgerOf (tryAttempts oracle m k a last).2.1 = [] := by
  induction k with
  | zero => intro a last; rfl
  | succ n ih =>
    intro a last
    unfold tryAttempts
    cases ho : oracle m a with
    | ok r => rfl
    | error e =>
      dsimp only
      rcases ht : tryAttempts oracle m n (a + 1) (some e) with ⟨res, evs, lst⟩
      have := ih (a + 1) (some e)
      rw [ht] at this
      simpa [ledgerOf] using this

theorem ledgerOf_rotationLoop (oracle : Oracle) (ms : List String) :
    ∀ (last : Option String), ledgerOf (rotationLoop oracle ms last).2.1 = [] := by
  induction ms with
  | nil => intro last; rfl
  | cons m rest ih =>
    intro last
    unfold rotationLoop
    rcases ht : tryAttempts oracle m MAX_RETRIES 0 last with ⟨res, evs, lst⟩
    have hev : ledgerOf evs = [] := by
      have := ledgerOf_tryAttempts oracle m MAX_RETRIES 0 last
      rw [ht] at this
      simpa using this
    cases res with
    | some r => simpa using hev
    | none =>
      simp [ledgerOf_append, hev, ih lst]

theorem ledgerOf_ask_with_rotation (oracle : Oracle) (tier : String) :
    ledgerOf (ask_with_rotation oracle tier).2 = [] := by
  unfold ask_with_rotation
  rcases hr : rotationLoop oracle (rotation_of tier) none with ⟨res, evs, lst⟩
  have := ledgerOf_rotationLoop oracle (rotation_of tier) none
  rw [hr] at this
  cases res <;> simpa using this

theorem askLive_ledger (cfg : CacheConfig) (B : EmbedBackend) (oracle : Oracle) (c : Cache)
    (full tier : String) (sc : Bool) (evs0 : List AskEvent) :
    ledgerOf (askLive cfg B oracle c full tier sc evs0).2.2 = ledgerOf evs0
    ∨ ∃ l : LedgerEntry, l.cache_hit = false ∧
      ledgerOf (askLive cfg B oracle c full tier sc evs0).2.2 = ledgerOf evs0 ++ [l] := by
  unfold askLive
  rcases hr : ask_with_rotation oracle tier with ⟨res, evs⟩
  have hev : ledgerOf evs = [] := by
    have := ledgerOf_ask_with_rotation oracle tier
    rw [hr] at this
    simpa using this
  cases res with
  | error e =>
    left
    simp [ledgerOf_append, hev]
  | ok rm =>
    rcases rm with ⟨r, model⟩
    right
    refine ⟨{ provider := providerName model, model := model, tokens_in := r.tokens_in,
              tokens_out := r.tokens_out, cost_usd := r.cost, cache_hit := false },
            rfl, ?_⟩
    cases sc <;>
    · simp [ledgerOf_append, hev, ledgerOf]
      exact fun a ha => List.forall_none_of_filterMap_eq_nil hev a ha

theorem askLive_hit_entries_zero (cfg : CacheConfig) (B : EmbedBackend) (oracle : Oracle)
    (c : Cache) (full tier : String) (sc : Bool) (evs0 : List AskEvent)
    (h0 : ledgerOf evs0 = []) :
    ∀ e ∈ ledgerOf (askLive cfg B oracle c full tier sc evs0).2.2,
      e.cache_hit = true → e.tokens_in = 0 ∧ e.tokens_out = 0 ∧ e.cost_usd = 0 := by
  intro e he hhit
  rcases askLive_ledger cfg B oracle c full tier sc evs0 with hl | ⟨l, hlf, hl⟩
  · rw [hl, h0] at he
    cases he
  · rw [hl, h0] at he
    simp at he
    rw [he] at hhit
    rw [hlf] at hhit
    cases hhit

/-! ## Claim C1 -/

/-- C1: every ledger row an `ask` call writes with `cache_hit = true` has
zero tokens and zero cost, and on the hit path (valid tier, `skip_cache`
false, cache check answers) the single row written is exactly the zero-cost
cache row. -/
theorem ask_cache_hit_is_free (cfg : CacheConfig) (B : EmbedBackend) (oracle : Oracle)
    (c : Cache) (prompt tier system : String) (skip_cache : Bool) :
    (∀ e ∈ ledgerOf (ask cfg B oracle c prompt tier system skip_cache).2.2,
       e.cache_hit = true → e.tokens_in = 0 ∧ e.tokens_out = 0 ∧ e.cost_usd = 0)
    ∧ ((PROVIDERS.lookup tier).isSome = true → skip_cache = false →
       ∀ r, (Cache.check cfg B c (fullPrompt system prompt)).1 = some r →
         ledgerOf (ask cfg B oracle c prompt tier system skip_cache).2.2 = [cacheHitEntry]) := by
  unfold ask
  by_cases htier : (PROVIDERS.lookup tier).isNone = true
  · rw [if_pos htier]
    constructor
    · intro e he
      cases he
    · intro hsome
      rw [Option.isNone_iff_eq_none] at htier
      rw [htier] at hsome
      cases hsome
  · rw [if_neg htier]
    by_cases hsc : skip_cache = true
    · rw [if_pos hsc]
      constructor
      · exact askLive_hit_entries_zero cfg B oracle c (fullPrompt system prompt) tier
          skip_cache [] rfl
      · intro _ hsc2
        rw [hsc] at hsc2
        cases hsc2
    · rw [if_neg hsc]
      rcases hchk : Cache.check cfg B c (fullPrompt system prompt) with ⟨o, c1⟩
      cases o with
      | some cached =>
        constructor
        · intro e he hhit
          simp [ledgerOf] at he
          rw [he]
          exact ⟨rfl, rfl, rfl⟩
        · intro _ _ r hr
          rfl
      | none =>
        constructor
        · exact askLive_hit_entries_zero cfg B oracle c1 (fullPrompt system prompt) tier
            skip_cache [AskEvent.cacheCheck (fullPrompt system prompt)] rfl
        · intro _ _ r hr
          simp at hr

/-- Witness for C1: a concrete exact-tier hit writes exactly the zero-cost
cache ledger row. -/
theorem ask_cache_hit_is_free_witness :
    ledgerOf (ask defaultCacheConfig noEmbed downOracle hitCache "2+2?" "low" "" false).2.2 =
      [cacheHitEntry] :=
  (ask_cache_hit_is_free defaultCacheConfig noEmbed downOracle hitCache
    "2+2?" "low" "" false).2 rfl rfl "4" rfl

/-! ## Claim C4 -/

theorem tryAttempts_all_fail (oracle : Oracle) (m : String) (k : Nat) :
    ∀ (a : Nat) (last : Option String),
      (∀ j, j < k → ∃ e, oracle m (a + j) = Except.error e) →
      (tryAttempts oracle m k a last).1 = none := by
  induction k with
  | zero => intro a last _; rfl
  | succ n ih =>
    intro a last h
    obtain ⟨e, he⟩ := h 0 (Nat.succ_pos n)
    rw [Nat.add_zero] at he
    unfold tryAttempts
    rw [he]
    dsimp only
    rcases ht : tryAttempts oracle m n (a + 1) (some e) with ⟨res, evs, lst⟩
    have hrec := ih (a + 1) (some e) (fun j hj => by
      have h2 := h (j + 1) (Nat.succ_lt_succ hj)
      rwa [show a + (j + 1) = a + 1 + j by omega] at h2)
    rw [ht] at hrec
    simpa using hrec

theorem rotationLoop_all_fail (oracle : Oracle) (ms : List String) :
    ∀ (last : Option String),
      (∀ m ∈ ms, ∀ a, a < MAX_RETRIES → ∃ e, oracle m a = Except.error e) →
      (rotationLoop oracle ms last).1 = none := by
  induction ms with
  | nil => intro last _; rfl
  | cons m rest ih =>
    intro last h
    unfold rotationLoop
    rcases ht : tryAttempts oracle m MAX_RETRIES 0 last with ⟨res, evs, lst⟩
    have hres : res = none := by
      have := tryAttempts_all_fail oracle m MAX_RETRIES 0 last (fun j hj => by
        simpa using h m (by simp) j hj)
      rw [ht] at this
      simpa using this
    subst hres
    have := ih lst (fun m' hm' a ha => h m' (List.mem_cons_of_mem m hm') a ha)
    simpa using this

theorem askLive_all_fail (cfg : CacheConfig) (B : EmbedBackend) (oracle : Oracle) (c : Cache)
    (full tier : String) (sc : Bool) (evs0 : List AskEvent)
    (hfail : ∀ m ∈ rotation_of tier, ∀ a, a < MAX_RETRIES →
      ∃ e, oracle m a = Except.error e) :
    ∃ msg, (askLive cfg B oracle c full tier sc evs0).1 =
      Except.ok ("[Inference error: " ++
        ("All providers in tier '" ++ tier ++ "' failed. Last error: " ++ msg) ++ "]") := by
  unfold askLive ask_with_rotation
  rcases hr : rotationLoop oracle (rotation_of tier) none with ⟨res, evs, lst⟩
  have hres : res = none := by
    have := rotationLoop_all_fail oracle (rotation_of tier) none hfail
    rw [hr] at this
    simpa using this
  subst hres
  exact ⟨optExcStr lst, rfl⟩

/-- C4: for every valid tier, when the cache does not answer and every
provider in the tier's rotation list fails all of its `MAX_RETRIES` attempts,
`ask` returns the synthesized `"[Inference error: ...]"` string as a normal
result — no exception reaches the caller. -/
theorem ask_all_providers_fail_no_raise (cfg : CacheConfig) (B : EmbedBackend)
    (oracle : Oracle) (c : Cache) (prompt tier system : String) (skip_cache : Bool)
    (htier : tier = "high" ∨ tier = "low" ∨ tier = "free")
    (hmiss : skip_cache = true ∨ (Cache.check cfg B c (fullPrompt system prompt)).1 = none)
    (hfail : ∀ m ∈ rotation_of tier, ∀ a, a < MAX_RETRIES →
      ∃ e, oracle m a = Except.error e) :
    ∃ msg, (ask cfg B oracle c prompt tier system skip_cache).1 =
      Except.ok ("[Inference error: " ++
        ("All providers in tier '" ++ tier ++ "' failed. Last error: " ++ msg) ++ "]") := by
  have hcond : ¬ ((PROVIDERS.lookup tier).isNone = true) := by
    rcases htier with h | h | h <;> subst h <;> decide
  unfold ask
  rw [if_neg hcond]
  by_cases hsc : skip_cache = true
  · rw [if_pos hsc]
    exact askLive_all_fail cfg B oracle c (fullPrompt system prompt) tier skip_cache [] hfail
  · rw [if_neg hsc]
    rcases hchk : Cache.check cfg B c (fullPrompt system prompt) with ⟨o, c1⟩
    have ho : o = none := by
      rcases hmiss with hm | hm
      · exact absurd hm hsc
      · rw [hchk] at hm
        simpa using hm
    subst ho
    exact askLive_all_fail cfg B oracle c1 (fullPrompt system prompt) tier skip_cache
      [AskEvent.cacheCheck (fullPrompt system prompt)] hfail

/-- Witness for C4: tier `low`, unreachable cache, an oracle on which every
provider attempt raises. -/
theorem ask_all_providers_fail_no_raise_witness :
    ∃ msg, (ask defaultCacheConfig noEmbed downOracle emptyCache "p" "low" "" false).1 =
      Except.ok ("[Inference error: " ++
        ("All providers in tier '" ++ "low" ++ "' failed. Last error: " ++ msg) ++ "]") :=
  ask_all_providers_fail_no_raise defaultCacheConfig noEmbed downOracle emptyCache
    "p" "low" "" false (Or.inr (Or.inl rfl)) (Or.inr rfl)
    (fun _ _ _ _ => ⟨"adapter down", rfl⟩)
